import Mathlib

/-!
A shallow embedding of the clara C front-end (`src/clara/c_parser.py`) and
the parts of its runtime it relies on.

Conventions of the embedding:
- Python is untyped; visitor methods return heterogeneous values.  `VisitRes`
  captures the possible results (an expression, a Python list of expressions,
  a string, a `(name, type, dim)` triple, or `None`).
- A Python list or `None` flowing into an `Op` argument position is kept as
  `Expr.pylist` / `Expr.pynone` (Python happily stores them there).
- `Expr.copy` is the identity: the embedding is pure, so defensive deep
  copies are no-ops.
- Machine-level failures of the Python code (AttributeError on a missing
  attribute, unbound local, bad unpacking, failed assertions) are modelled
  as explicit `Err` values, since an exception aborts the translation.
- Diagnostic message strings are simplified (no quoting, `%`-interpolation
  replaced by plain concatenation); the claims only depend on whether and
  how many diagnostics are recorded.
- The base class `Parser` and `model.py` are not part of `src/`; every
  definition taken from them instead of the C-parser source carries a doc
  comment starting with `Modelled from the spec:`.
- All recursion through the syntax tree is fuel-indexed (the switch
  desugaring re-visits a freshly built tree, so structural recursion on the
  node is unavailable).  `Err.outOfFuel` marks fuel exhaustion; theorems
  quantify over sufficient fuel.
-/

set_option autoImplicit false

/-- Failure modes: `NotSupported` and `ParseError` are the two fatal error
kinds of the parser; the remaining constructors model Python runtime
exceptions escaping the visitor; `outOfFuel` is an artifact of the
fuel-indexed embedding. -/
inductive Err where
| outOfFuel
| notSupported (msg : String) (line : Option Nat)
| parseError (msg : String)
| attributeError (msg : String)
| nameError (msg : String)
| indexError (msg : String)
| typeError (msg : String)
| valueError (msg : String)
| assertionError
deriving Repr, DecidableEq

/-- Modelled from the spec: the Expression data model of `model.py`
(Variable / Constant / Operation, each carrying an optional source line).
`pylist`, `pystr`, `pynone` stand for raw Python values that can flow into
expression positions in the untyped source. -/
inductive Expr where
| var (name : String) (line : Option Nat)
| const (value : String) (line : Option Nat)
| op (name : String) (args : List Expr) (line : Option Nat)
| pylist (elems : List Expr)
| pystr (s : String)
| pynone
deriving Repr

/-- Modelled from the spec: expressions are immutable values, so a deep copy
is the identity in a pure embedding. -/
def Expr.copy (e : Expr) : Expr := e

/-- Python truthiness of a value in expression position. -/
def Expr.truthy : Expr → Bool
| .pynone => false
| .pylist es => !es.isEmpty
| .pystr s => !(s = "")
| _ => true

/-- Accessing `.line` on a value: `Expr` objects have it, raw Python values
raise AttributeError. -/
def Expr.lineAttr : Expr → Except Err (Option Nat)
| .var _ l => .ok l
| .const _ l => .ok l
| .op _ _ l => .ok l
| _ => .error (.attributeError "line")

/-- Modelled from the spec: the three reserved pseudo-variables
(input stream, output stream, return value) of `model.py`. -/
def VAR_IN : String := "$in"

/-- Modelled from the spec: the output-stream pseudo-variable. -/
def VAR_OUT : String := "$out"

/-- Modelled from the spec: the return-value pseudo-variable. -/
def VAR_RET : String := "$ret"

/-- Transition guard: the unconditional guard (Python `True`) or a boolean
expression. -/
inductive Guard where
| btrue
| bexpr (e : Expr)
deriving Repr

/-- A scheduled update: variable name and the expression assigned to it. -/
structure Upd where
  var : String
  expr : Expr
deriving Repr

/-- Modelled from the spec: a loop-stack entry is the triple
(condition-location, exit-location, continue-target-location). -/
structure LoopEntry where
  condloc : Nat
  exitloc : Nat
  contloc : Option Nat
deriving Repr, DecidableEq

/-- A transition of the automaton: source location, guard, target location. -/
structure Transition where
  src : Nat
  guard : Guard
  dst : Nat
deriving Repr

/-- One entry of a registered parameter list.  `pair` is a Python
`(name, type)` tuple; `raw` is the string produced when the source slices a
plain type-name string with `[:2]` instead of a tuple. -/
inductive ParamEntry where
| pair (name : Option String) (ty : String)
| raw (s : String)
deriving Repr, DecidableEq

/-- A registered function record: name, parameter list, return type. -/
structure Fnc where
  name : String
  params : List ParamEntry
  rtype : String
deriving Repr, DecidableEq

/-- Modelled from the spec: the mutable traversal state of the parser object
plus the automaton storage it mutates (update log, loop stack, flags,
pending-postfix counter, locations, transitions, registries, warning list,
line map). -/
structure PState where
  exprs : List Upd
  postincdec : Nat
  inswitch : Bool
  nobcs : Bool
  hasbcs : Bool
  fncdef : Bool
  loc : Nat
  nextloc : Nat
  loopstack : List LoopEntry
  trans : List Transition
  warns : List String
  linemap : List (Nat × String)
  fncs : List Fnc
  types : List (Option String × String)
deriving Repr

/-- The state at the start of a translation unit. -/
def PState.init : PState :=
  ⟨[], 0, false, false, false, false, 0, 1, [], [], [], [], [], []⟩

/-- Python `list.insert` semantics: a negative index counts from the end,
out-of-range indices are clamped. -/
def pyInsert (l : List Upd) (idx : Int) (u : Upd) : List Upd :=
  let pos : Nat :=
    if idx < 0 then ((l.length : Int) + idx).toNat else min idx.toNat l.length
  l.take pos ++ u :: l.drop pos

/-- Modelled from the spec: `add-update(variable, expression,
optional-insertion-index)` on the appendable update log; with no index the
update is appended, with an index it is inserted at that position. -/
def PState.addexpr (st : PState) (v : String) (e : Expr) (idx : Option Int) :
    PState :=
  match idx with
  | none => {st with exprs := st.exprs ++ [⟨v, e⟩]}
  | some i => {st with exprs := pyInsert st.exprs i ⟨v, e⟩}

/-- Modelled from the spec: the number of updates currently in the log
(the checkpoint taken by the ternary builder). -/
def PState.numexprs (st : PState) : Nat := st.exprs.length

/-- Modelled from the spec: rollback-to-checkpoint — remove the last `num`
updates from the log. -/
def PState.rmlastexprs (st : PState) (num : Nat) : PState :=
  {st with exprs := st.exprs.take (st.exprs.length - num)}

/-- Modelled from the spec: `create-location` returns a fresh location id
(ids start at 1); the description argument is diagnostic only and dropped. -/
def PState.addloc (st : PState) : Nat × PState :=
  (st.nextloc, {st with nextloc := st.nextloc + 1})

/-- Modelled from the spec: `add-transition(from, guard, to)`. -/
def PState.addtrans (st : PState) (src : Nat) (g : Guard) (dst : Nat) :
    PState :=
  {st with trans := st.trans ++ [⟨src, g, dst⟩]}

/-- Modelled from the spec: the innermost loop-stack entry, if any. -/
def PState.lastloop (st : PState) : Option LoopEntry := st.loopstack.head?

/-- Modelled from the spec: push a loop-stack entry on entering a loop
body. -/
def PState.pushloop (st : PState) (e : LoopEntry) : PState :=
  {st with loopstack := e :: st.loopstack}

/-- Modelled from the spec: pop the innermost loop-stack entry on leaving a
loop body. -/
def PState.poploop (st : PState) : PState :=
  {st with loopstack := st.loopstack.tail}

/-- Modelled from the spec: `record-warning`; the message is recorded and
translation continues. -/
def PState.addwarn (st : PState) (msg : String) : PState :=
  {st with warns := st.warns ++ [msg]}

/-- Modelled from the spec: `record-line-scope(line, scope-path)`. -/
def PState.addlinemap (st : PState) (line : Nat) (pfx : String) : PState :=
  {st with linemap := st.linemap ++ [(line, pfx)]}

/-- Modelled from the spec: `register-function(name, params, return-type)`;
also opens the per-function scope. -/
def PState.addfnc (st : PState) (name : String) (params : List ParamEntry)
    (rtype : String) : PState :=
  {st with fncs := st.fncs ++ [⟨name, params, rtype⟩]}

/-- Modelled from the spec: `register-type(name, type)`, which fails (an
assertion) when the name is already registered. -/
def PState.addtype (st : PState) (v : Option String) (t : String) :
    Except Err PState :=
  if (st.types.map Prod.fst).contains v then .error .assertionError
  else .ok {st with types := st.types ++ [(v, t)]}

/-- Modelled from the spec: closing the per-function automaton scope; a
no-op on the abstracted state. -/
def PState.endfnc (st : PState) : PState := st

/-- The heterogeneous result of visiting a node: `None`, an expression, a
Python list of expressions, a plain string (type names), or a
`(name, type, dim)` triple (declarations). -/
inductive VisitRes where
| vnone
| vexpr (e : Expr)
| vlist (es : List Expr)
| vstr (s : String)
| vtriple (name : Option String) (ty : String) (dim : Option Expr)
deriving Repr

/-- Collapse a visit result to the Python value it stands for in expression
position. -/
def VisitRes.toExpr : VisitRes → Expr
| .vnone => .pynone
| .vexpr e => e
| .vlist es => .pylist es
| .vstr s => .pystr s
| .vtriple _ _ _ => .pynone

/-- Python truthiness of a visit result. -/
def VisitRes.truthy : VisitRes → Bool
| .vnone => false
| .vexpr e => e.truthy
| .vlist es => !es.isEmpty
| .vstr s => !(s = "")
| .vtriple _ _ _ => true

/-- Accessing `.line` on a visit result (only `Expr` objects have it). -/
def VisitRes.lineAttr : VisitRes → Except Err (Option Nat)
| .vexpr e => e.lineAttr
| _ => .error (.attributeError "line")

/-- The `self.visit(node.args) or []` idiom of `visit_FuncCall`: an argument
list, or the empty list for a falsy result. -/
def VisitRes.argsList : VisitRes → List Expr
| .vlist es => es
| _ => []

/-- The syntax-tree node grammar consumed by the parser (the pycparser node
classes used by `c_parser.py`), each node carrying its source line. -/
inductive Node where
| ID (name : String) (line : Nat)
| Constant (value : String) (line : Nat)
| BinaryOp (op : String) (left : Node) (right : Node) (line : Nat)
| UnaryOp (op : String) (expr : Node) (line : Nat)
| TernaryOp (cond : Node) (iftrue : Node) (iffalse : Node) (line : Nat)
| ArrayRef (name : Node) (subscript : Node) (line : Nat)
| FuncCall (name : Node) (args : Option Node) (line : Nat)
| ExprList (exprs : List Node) (line : Nat)
| Assignment (op : String) (lvalue : Node) (rvalue : Node) (line : Nat)
| Compound (block_items : List Node) (line : Nat)
| If (cond : Node) (iftrue : Node) (iffalse : Option Node) (line : Nat)
| While (cond : Node) (stmt : Node) (line : Nat)
| DoWhile (cond : Node) (stmt : Node) (line : Nat)
| For (init : Option Node) (cond : Option Node) (next : Option Node)
      (stmt : Node) (line : Nat)
| Switch (cond : Node) (stmt : Node) (line : Nat)
| Case (expr : Node) (stmts : List Node) (line : Nat)
| Default (stmts : List Node) (line : Nat)
| Break (line : Nat)
| Continue (line : Nat)
| Return (expr : Option Node) (line : Nat)
| Goto (name : String) (line : Nat)
| FuncDef (decl : Node) (body : Node) (line : Nat)
| FuncDecl (args : Option (List Node)) (ty : Node) (line : Nat)
| Decl (name : String) (ty : Node) (init : Option Node) (line : Nat)
| TypeDecl (declname : Option String) (ty : Node)
| IdentifierType (names : List String)
| Typename (ty : Node) (line : Nat)
deriving Repr

/-- The source line of a node (`node.coord.line`); nodes that carry no
coordinate in pycparser report 0 here. -/
def Node.lineOf : Node → Nat
| .ID _ l => l
| .Constant _ l => l
| .BinaryOp _ _ _ l => l
| .UnaryOp _ _ l => l
| .TernaryOp _ _ _ l => l
| .ArrayRef _ _ l => l
| .FuncCall _ _ l => l
| .ExprList _ l => l
| .Assignment _ _ _ l => l
| .Compound _ l => l
| .If _ _ _ l => l
| .While _ _ l => l
| .DoWhile _ _ l => l
| .For _ _ _ _ l => l
| .Switch _ _ l => l
| .Case _ _ l => l
| .Default _ l => l
| .Break l => l
| .Continue l => l
| .Return _ l => l
| .Goto _ l => l
| .FuncDef _ _ l => l
| .FuncDecl _ _ l => l
| .Decl _ _ _ l => l
| .TypeDecl _ _ => 0
| .IdentifierType _ => 0
| .Typename _ l => l

/-- Accessing `item.stmts` in the switch conversion: only `Case` and
`Default` nodes have a `stmts` attribute; anything else raises
AttributeError (c_parser.py line 373). -/
def Node.stmtsAttr : Node → Except Err (List Node)
| .Case _ ss _ => .ok ss
| .Default ss _ => .ok ss
| _ => .error (.attributeError "stmts")

/-- `TYPE_SYNONYMS` of `CParser` (c_parser.py lines 20-29). -/
def TYPE_SYNONYMS : List (String × String) :=
  [("double", "float"), ("long_long_int", "int"), ("long_int", "int"),
   ("long", "int"), ("unsigned", "int"), ("unsigned_int", "int"),
   ("unsigned_long_int", "int"), ("unsigned_long", "int")]

/-- `TYPE_SYNONYMS.get(name, name)`. -/
def typeSyn (s : String) : String :=
  match TYPE_SYNONYMS.lookup s with
  | some t => t
  | none => s

/-- `CONSTS` of `CParser` (c_parser.py line 31). -/
def CONSTS : List String := ["EOF"]

/-- `LIB_FNCS` of `CParser` (c_parser.py lines 36-38). -/
def LIB_FNCS : List String :=
  ["floor", "ceil", "pow", "abs", "sqrt", "log2", "log10", "log", "exp"]

/-- `"_".join(node.names)` (c_parser.py line 777). -/
def joinUnder : List String → String
| [] => ""
| [s] => s
| s :: rest => s ++ "_" ++ joinUnder rest

/-- Strip a literal pattern from the front of a character list. -/
def stripPrefixChars : List Char → List Char → Option (List Char)
| [], cs => some cs
| _ :: _, [] => none
| p :: ps, c :: cs => if p = c then stripPrefixChars ps cs else none

/-- Python `str.replace` (all occurrences, left to right, non-overlapping)
on character lists, for a non-empty pattern `p :: ps`.  The first argument
is fuel for structural recursion; every step consumes at least one input
character, so fuel equal to the input length (as supplied by `pyReplace`)
is never exhausted. -/
def replaceCharsNE (p : Char) (ps : List Char) (sub : List Char) :
    Nat → List Char → List Char
| 0, l => l
| _ + 1, [] => []
| f + 1, c :: rest =>
  match stripPrefixChars (p :: ps) (c :: rest) with
  | some rem => sub ++ replaceCharsNE p ps sub f rem
  | none => c :: replaceCharsNE p ps sub f rest

/-- Python `s.replace(pat, sub)` on strings (the empty-pattern case is
unused by the source and leaves the input unchanged). -/
def pyReplace (s pat sub : String) : String :=
  match pat.toList with
  | [] => s
  | p :: ps => String.mk (replaceCharsNE p ps sub.toList s.toList.length s.toList)

/-- The printf format normalization (c_parser.py lines 458-460):
`%lf` to `%f`, then `%ld` to `%d`, then `%lld` to `%d`. -/
def normFormat (v : String) : String :=
  pyReplace (pyReplace (pyReplace v "%lf" "%f") "%ld" "%d") "%lld" "%d"

/-- The alternatives of the scanf specifier regex, in the order they are
tried (c_parser.py lines 494-495). -/
def SPEC_ALTS : List (List Char) :=
  [['d'], ['i'], ['l', 'i'], ['l', 'l', 'i'], ['l', 'd'], ['l', 'l', 'd'],
   ['l', 'f'], ['f'], ['s'], ['c']]

/-- Try the regex alternatives in order at the given position. -/
def tryAlts : List (List Char) → List Char → Option (List Char × List Char)
| [], _ => none
| alt :: alts, cs =>
  match stripPrefixChars alt cs with
  | some rem => some (alt, rem)
  | none => tryAlts alts cs

/-- `re.findall` of the scanf specifier regex: scan left to right; at a `%`
try the alternatives in order, consume the whole match and record it;
otherwise advance one character.  Fuel-indexed for structural recursion;
every step consumes at least one character, so fuel equal to the input
length (as supplied by `findSpecs`) is never exhausted. -/
def findSpecsF : Nat → List Char → List String
| 0, _ => []
| _ + 1, [] => []
| f + 1, c :: rest =>
  if c = '%' then
    match tryAlts SPEC_ALTS rest with
    | some (alt, rem) => String.mk ('%' :: alt) :: findSpecsF f rem
    | none => findSpecsF f rest
  else findSpecsF f rest

/-- The ordered list of scanf conversion specifiers found in a format
string. -/
def findSpecs (l : List Char) : List String := findSpecsF l.length l

/-- `visit_Goto` (c_parser.py lines 694-701): always fails with the
unsupported-construct error, carrying no source line. -/
def visit_Goto (_name : String) (_line : Nat) (_pfx : String) (_st : PState) :
    Except Err (VisitRes × PState) :=
  .error (.notSupported "Not supporting GOTO - it is considered harmful." none)

/-- `visit_Break` (c_parser.py lines 634-657). -/
def visit_Break (line : Nat) (pfx : String) (st : PState) :
    Except Err (VisitRes × PState) :=
  if st.inswitch || st.nobcs then .ok (.vnone, st)
  else
    match st.lastloop with
    | none =>
        .ok (.vnone, st.addwarn ("break outside loop at line " ++ Nat.repr line))
    | some ll =>
        let st := {st with hasbcs := true}
        let preloc := st.loc
        let (newloc, st) := st.addloc
        let st := {st with loc := newloc}
        let st := st.addtrans preloc .btrue ll.exitloc
        .ok (.vnone, st.addlinemap line pfx)

/-- The continue target `lastloop[2] if lastloop[2] else lastloop[0]`
(c_parser.py line 680): Python truthiness on the optional location id.
Location ids handed out by `addloc` start at 1, so the `0` test never
fires in reachable states. -/
def LoopEntry.contTarget (ll : LoopEntry) : Nat :=
  match ll.contloc with
  | some c => if c = 0 then ll.condloc else c
  | none => ll.condloc

/-- `visit_Continue` (c_parser.py lines 659-682): unlike `visit_Break`,
only the suppression flag is consulted, not the inside-switch flag. -/
def visit_Continue (line : Nat) (pfx : String) (st : PState) :
    Except Err (VisitRes × PState) :=
  if st.nobcs then .ok (.vnone, st)
  else
    match st.lastloop with
    | none =>
        .ok (.vnone, st.addwarn ("continue outside loop at line " ++ Nat.repr line))
    | some ll =>
        let st := {st with hasbcs := true}
        let preloc := st.loc
        let (newloc, st) := st.addloc
        let st := {st with loc := newloc}
        let st := st.addtrans preloc .btrue ll.contTarget
        .ok (.vnone, st.addlinemap line pfx)

/-- `visit_printf` (c_parser.py lines 439-468): extract the literal format
(warning and placeholder otherwise; a non-constant first argument is kept
in the argument list), normalize long-variant specifiers, schedule one
append update on the output stream. -/
def visit_printf (line : Nat) (args : List Expr) (pfx : String) (st : PState) :
    Except Err (VisitRes × PState) :=
  let (v, l, rest, st) :=
    match args with
    | [] => ("?", some line, ([] : List Expr),
             st.addwarn ("printf with zero args at line " ++ Nat.repr line))
    | .const v l :: tl => (v, l, tl, st)
    | a :: tl => ("?", some line, a :: tl,
                  st.addwarn ("First argument of printf at line " ++
                              Nat.repr line ++ " should be a format"))
  let fmt2 := Expr.const (normFormat v) l
  let e := Expr.op "StrAppend"
    [Expr.var VAR_OUT none, Expr.op "StrFormat" (fmt2 :: rest) (some line)]
    (some line)
  let st := st.addexpr VAR_OUT e none
  .ok (.vnone, st.addlinemap line pfx)

/-- The specifier-to-type mapping of `visit_scanf` (c_parser.py lines
509-526); the Bool records whether the invalid-format warning fires. -/
def scanfTypeName (f : String) : String × Bool :=
  if f = "%d" ∨ f = "%ld" ∨ f = "%i" ∨ f = "%li" ∨ f = "%lli" ∨ f = "%lld" then
    ("int", false)
  else if f = "%c" then ("char", false)
  else if f = "%s" then ("string", false)
  else if f = "%f" ∨ f = "%lf" then ("float", false)
  else if f = "*" then ("*", false)
  else ("*", true)

/-- One (specifier, argument) step of the `visit_scanf` loop (c_parser.py
lines 507-553): unwrap an address-of target (warning for a bare variable or
index target, failure otherwise), then schedule the typed head pop into the
target and the tail advance of the input stream. -/
def scanfPair (line : Nat) (f : String) (a : Expr) (st : PState) :
    Except Err PState :=
  let (t, w) := scanfTypeName f
  let st := if w then st.addwarn ("Invalid scanf format at line " ++ Nat.repr line)
            else st
  match (match a with
         | .op "&" [inner] _ => .ok (inner, st)
         | .var v l =>
             .ok (Expr.var v l,
                  st.addwarn ("Forgotten & in scanf at line " ++ Nat.repr line))
         | .op "[]" iargs l =>
             .ok (Expr.op "[]" iargs l,
                  st.addwarn ("Forgotten & in scanf at line " ++ Nat.repr line))
         | _ => .error (.notSupported "Argument to scanf" (some line))
         : Except Err (Expr × PState)) with
  | .error e => .error e
  | .ok (a2, st) =>
      let rexpr := Expr.op "ListHead" [Expr.const t none, Expr.var VAR_IN none]
                     (some line)
      match (match a2 with
             | .var v _ => .ok (st.addexpr v rexpr none)
             | .op "[]" (Expr.var b lb :: i :: _) _ =>
                 .ok (st.addexpr b
                       (Expr.op "ArrayAssign" [Expr.var b lb, i, rexpr] (some line))
                       none)
             | _ => .error (.notSupported "Argument to scanf" (some line))
             : Except Err PState) with
      | .error e => .error e
      | .ok st =>
          .ok (st.addexpr VAR_IN
                (Expr.op "ListTail" [Expr.var VAR_IN none] (some line)) none)

/-- The zip-iteration of `visit_scanf` over (specifier, argument) pairs. -/
def scanfLoop (line : Nat) : List (String × Expr) → PState → Except Err PState
| [], st => .ok st
| (f, a) :: rest, st =>
  match scanfPair line f a st with
  | .error e => .error e
  | .ok st => scanfLoop line rest st

/-- `visit_scanf` (c_parser.py lines 470-556).  With no arguments the
Python code warns and then reads the local `fmt` that was never assigned,
so the call raises NameError.  A count mismatch between specifiers and
arguments warns and pads the specifier side with the wildcard; the `zip`
truncates the longer side. -/
def visit_scanf (line : Nat) (args : List Expr) (pfx : String) (st : PState) :
    Except Err (VisitRes × PState) :=
  match args with
  | [] => .error (.nameError "fmt")
  | a :: tl =>
      match (match a with
             | .const v _ =>
                 match v.toList with
                 | [] => .error (.indexError "string index out of range")
                 | cs =>
                     if cs.head? = some '"' ∧ cs.getLast? = some '"' then
                       .ok (String.mk ((cs.drop 1).dropLast), tl, st)
                     else
                       .ok ("", ([] : List Expr),
                            st.addwarn ("First argument of scanf at line " ++
                              Nat.repr line ++ " should be a string format"))
             | _ =>
                 .ok ("", ([] : List Expr),
                      st.addwarn ("First argument of scanf at line " ++
                        Nat.repr line ++ " should be a string format"))
             : Except Err (String × List Expr × PState)) with
      | .error e => .error e
      | .ok (fmt, args2, st) =>
          let fs := findSpecs fmt.toList
          let (fs, st) :=
            if fs.length ≠ args2.length then
              let st := st.addwarn
                ("Mismatch between format and number of arguments of scanf at line "
                  ++ Nat.repr line)
              if args2.length > fs.length then
                (fs ++ List.replicate (args2.length - fs.length) "*", st)
              else (fs, st)
            else (fs, st)
          match scanfLoop line (fs.zip args2) st with
          | .error e => .error e
          | .ok st => .ok (.vnone, st.addlinemap line pfx)

/-- The `convert` closure of `visit_Switch` (c_parser.py lines 365-384):
turn the list of case/default groups into a nested if chain.  Accessing
`item.stmts` on any other node raises AttributeError; a `Default` that is
not the last item falls through both branches and yields `None`, silently
dropping it and everything after it. -/
def convert (swcond : Node) : List Node → Except Err (Option Node)
| [] => .ok none
| item :: rest =>
  match item.stmtsAttr with
  | .error e => .error e
  | .ok ss =>
      let stmt := Node.Compound ss item.lineOf
      match item with
      | .Default _ _ =>
          match rest with
          | [] => .ok (some stmt)
          | _ :: _ => .ok none
      | .Case ce _ _ =>
          match convert swcond rest with
          | .error e => .error e
          | .ok next =>
              .ok (some (Node.If (Node.BinaryOp "==" swcond ce ce.lineOf)
                           stmt next ce.lineOf))
      | _ => .ok none

/-- The assignment-operator expansion of `visit_Assignment` (c_parser.py
lines 193-200): `=` passes through, a two-character `X=` becomes
`Op(X, lvalue, rvalue)` (reading `.line` off the rvalue, which raises
AttributeError for a raw list), anything else is unsupported. -/
def assignRhs (aop : String) (lvalue : Expr) (rres : VisitRes) (line : Nat) :
    Except Err VisitRes :=
  if aop = "=" then .ok rres
  else
    match aop.toList with
    | [c, c2] =>
        if c2 = '=' then
          match rres.lineAttr with
          | .error e => .error e
          | .ok l =>
              .ok (.vexpr (.op (String.singleton c) [lvalue.copy, rres.toExpr] l))
        else .error (.notSupported ("Assignment operator " ++ aop) (some line))
    | _ => .error (.notSupported ("Assignment operator " ++ aop) (some line))

/-- The lvalue dispatch, comma-list unwrap and update scheduling of
`visit_Assignment` (c_parser.py lines 202-225).  The comma-list unwrap
(line 217) runs only after the `ArrayAssign` rewrite of an index lvalue,
so there a list rvalue is embedded whole instead of being reduced to its
last element (a compound-operator assignment with a list rvalue never
reaches this point: `assignRhs` already fails reading `.line` off the raw
list).  When the saved postfix counter is non-zero the update is inserted
that many positions from the end of the log. -/
def assignFinish (lvalue : Expr) (rv2 : VisitRes) (cnt : Nat) (line : Nat)
    (st : PState) : Except Err (VisitRes × PState) :=
  let idx : Option Int := if cnt ≠ 0 then some (-(cnt : Int)) else none
  match lvalue with
  | .var v lnv =>
      let rv3 : Expr :=
        match rv2 with
        | .vlist es => (es.getLast?).getD .pynone
        | r => r.toExpr
      .ok (.vexpr (.var v lnv), st.addexpr v rv3.copy idx)
  | .op "[]" (Expr.var b lb :: i :: restargs) lno =>
      let rv3 := Expr.op "ArrayAssign" [(Expr.var b lb).copy, i.copy, rv2.toExpr]
                   (some line)
      .ok (.vexpr (.op "[]" (Expr.var b lb :: i :: restargs) lno),
           st.addexpr b rv3.copy idx)
  | _ => .error (.notSupported "Assignment lvalue" (some line))

/-- Classification of one visited parameter in `visit_FuncDef` (c_parser.py
lines 100-111): the string `void` is skipped; a `Var` becomes a
`(name, int)` pair; a triple is truncated to `(name, type)` by `param[:2]`;
any other string is sliced to its first two characters by the same
`param[:2]`; slicing other Python values raises TypeError. -/
def paramEntryOf : VisitRes → Except Err (Option ParamEntry)
| .vstr s =>
    if s = "void" then .ok none
    else .ok (some (.raw (String.mk (s.toList.take 2))))
| .vexpr (.var v _) => .ok (some (.pair (some v) "int"))
| .vexpr _ => .error (.typeError "param slice")
| .vtriple n t _ => .ok (some (.pair n t))
| _ => .error (.typeError "param slice")

/-- Classification of one visited parameter in `visit_FuncDecl` (c_parser.py
lines 136-146): like `visit_FuncDef`, but a plain string becomes the pair
`(_, type)` before the slice is reached. -/
def paramEntryOfDecl : VisitRes → Except Err (Option ParamEntry)
| .vstr s =>
    if s = "void" then .ok none else .ok (some (.pair (some "_") s))
| .vexpr (.var v _) => .ok (some (.pair (some v) "int"))
| .vexpr _ => .error (.typeError "param slice")
| .vtriple n t _ => .ok (some (.pair n t))
| _ => .error (.typeError "param slice")

/-- The `for v, t in params: self.addtype(v, t)` loops (c_parser.py lines
116-117 and 151-152); unpacking a `raw` entry destructures the two-character
string into its characters, any other length raises ValueError. -/
def addtypesParams : List ParamEntry → PState → Except Err PState
| [], st => .ok st
| .pair n t :: rest, st =>
    match st.addtype n t with
    | .error e => .error e
    | .ok st => addtypesParams rest st
| .raw s :: rest, st =>
    match s.toList with
    | [c1, c2] =>
        match st.addtype (some (String.singleton c1)) (String.singleton c2) with
        | .error e => .error e
        | .ok st => addtypesParams rest st
    | _ => .error (.valueError "unpack")

mutual

/-- The node dispatcher `visit` (the per-node logic of each `visit_X`
method of c_parser.py is inlined as the arm for its node constructor, with
the source lines noted).  Fuel-indexed; all recursive calls use one unit
less fuel. -/
def visit : Nat → Node → String → PState → Except Err (VisitRes × PState)
| 0, _, _, _ => .error .outOfFuel
| f+1, node, pfx, st =>
  match node with
  -- visit_ID (c_parser.py lines 233-242)
  | .ID name line =>
      if CONSTS.contains name then .ok (.vexpr (.const name (some line)), st)
      else .ok (.vexpr (.var name (some line)), st)
  -- visit_Constant (lines 308-314)
  | .Constant v line => .ok (.vexpr (.const v (some line)), st)
  -- visit_BinaryOp (lines 254-261)
  | .BinaryOp bop l r line =>
      match visit_expr f (some l) pfx st with
      | .error e => .error e
      | .ok (lv, st) =>
          match visit_expr f (some r) pfx st with
          | .error e => .error e
          | .ok (rv, st) => .ok (.vexpr (.op bop [lv, rv] (some line)), st)
  -- visit_UnaryOp (lines 263-292)
  | .UnaryOp uop sub line =>
      match visit_expr f (some sub) pfx st with
      | .error e => .error e
      | .ok (e1, st) =>
          if uop = "++" ∨ uop = "--" then
            match e1 with
            | .var v lv =>
                let ch := if uop = "++" then "+" else "-"
                .ok (.vexpr (.var v lv),
                     st.addexpr v
                       (.op ch [(Expr.var v lv).copy, .const "1" none] (some line))
                       none)
            | _ => .error (.notSupported "++/-- supported only for Vars" (some line))
          else if uop = "p++" ∨ uop = "p--" then
            match e1 with
            | .var v lv =>
                let ch := if uop = "p++" then "+" else "-"
                let st := st.addexpr v
                  (.op ch [(Expr.var v lv).copy, .const "1" none] (some line)) none
                .ok (.vexpr (.var v lv), {st with postincdec := st.postincdec + 1})
            | _ =>
                .error (.notSupported "p++/p-- supported only for Vars" (some line))
          else .ok (.vexpr (.op uop [e1] (some line)), st)
  -- visit_TernaryOp (lines 327-345)
  | .TernaryOp c t e line =>
      match visit_expr f (some c) pfx st with
      | .error er => .error er
      | .ok (cv, st) =>
          let st := st.addlinemap line pfx
          let n := st.numexprs
          match visit_expr f (some t) pfx st with
          | .error er => .error er
          | .ok (tv, st) =>
              match visit_expr f (some e) pfx st with
              | .error er => .error er
              | .ok (ev2, st) =>
                  if n < st.numexprs then
                    visit_if f c t (some e) pfx (st.rmlastexprs (st.numexprs - n))
                  else .ok (.vexpr (.op "ite" [cv, tv, ev2] (some line)), st)
  -- visit_ArrayRef (lines 294-306)
  | .ArrayRef nm sub line =>
      match visit_expr f (some nm) pfx st with
      | .error e => .error e
      | .ok (nv, st) =>
          match nv with
          | .var v lv =>
              match visit_expr f (some sub) pfx st with
              | .error e => .error e
              | .ok (sv, st) =>
                  .ok (.vexpr (.op "[]" [.var v lv, sv] (some line)), st)
          | _ => .error (.notSupported "ArrayName" none)
  -- visit_Cast and visit_InitList are not needed by any claim and their
  -- node constructors are omitted.
  -- visit_FuncCall (lines 402-437)
  | .FuncCall nameN argsN line =>
      match visit_expr f (some nameN) pfx st with
      | .error e => .error e
      | .ok (namee, st) =>
          let st := st.addlinemap line pfx
          match namee with
          | .var fname fl =>
              match visit_args f argsN pfx st with
              | .error e => .error e
              | .ok (args, st) =>
                  if fname = "scanf" then visit_scanf line args pfx st
                  else if fname = "printf" then visit_printf line args pfx st
                  else if (st.fncs.map Fnc.name).contains fname then
                    .ok (.vexpr (.op "FuncCall" (.var fname fl :: args) (some line)),
                         st)
                  else if LIB_FNCS.contains fname then
                    .ok (.vexpr (.op fname args (some line)), st)
                  else
                    .error (.notSupported ("Unsupported function call " ++ fname)
                              (some line))
          | other =>
              match other.lineAttr with
              | .error e => .error e
              | .ok l => .error (.notSupported "Non-var function name" l)
  -- visit_ExprList (lines 558-567): `list(map(self.visit_expr, node.exprs,
  -- prefix))` maps over two iterables, so the expressions are paired with
  -- the characters of the scope prefix, each visited under its one
  -- character, and the longer side is dropped.
  | .ExprList exprs line =>
      let st := st.addlinemap line pfx
      match visit_exprs_zipped f (exprs.zip pfx.toList) st with
      | .error e => .error e
      | .ok (es, st) => .ok (.vlist es, st)
  -- visit_Assignment (lines 176-225)
  | .Assignment aop lvN rvN line =>
      match visit_expr f (some lvN) pfx st with
      | .error e => .error e
      | .ok (lvalue, st) =>
          let st := st.addlinemap line pfx
          let saved := st.postincdec
          let st := {st with postincdec := 0}
          match visit f rvN pfx st with
          | .error e => .error e
          | .ok (rres, st) =>
              let cnt := st.postincdec
              let st := {st with postincdec := saved}
              let rres := if rres.truthy then rres else .vexpr (.const "?" (some line))
              match assignRhs aop lvalue rres line with
              | .error e => .error e
              | .ok rv2 => assignFinish lvalue rv2 cnt line st
  -- visit_Compound (lines 160-174)
  | .Compound items line =>
      match visit_items f items pfx st with
      | .error e => .error e
      | .ok st => .ok (.vnone, st.addlinemap line pfx)
  -- visit_If (lines 569-577)
  | .If c t e line =>
      match visit_if f c t e (pfx ++ "if.") st with
      | .error er => .error er
      | .ok (_, st) => .ok (.vnone, st.addlinemap line (pfx ++ "if."))
  -- visit_While (lines 579-591)
  | .While c b line =>
      if st.inswitch then .error (.notSupported "Loop inside switch" (some line))
      else
        match visit_loop f none (some c) none b false "while" (pfx ++ "while.") st with
        | .error e => .error e
        | .ok (_, st) => .ok (.vnone, st.addlinemap line (pfx ++ "while."))
  -- visit_DoWhile (lines 593-605)
  | .DoWhile c b line =>
      if st.inswitch then .error (.notSupported "Loop inside switch" (some line))
      else
        match visit_loop f none (some c) none b true "do-while" (pfx ++ "dowhile.") st with
        | .error e => .error e
        | .ok (_, st) => .ok (.vnone, st.addlinemap line (pfx ++ "dowhile."))
  -- visit_For (lines 607-619)
  | .For ini c nxt b line =>
      if st.inswitch then .error (.notSupported "Loop inside switch" (some line))
      else
        match visit_loop f ini c nxt b false "for" (pfx ++ "for.") st with
        | .error e => .error e
        | .ok (_, st) => .ok (.vnone, st.addlinemap line (pfx ++ "for."))
  -- visit_Switch (lines 347-400)
  | .Switch c body line =>
      match visit_expr f (some c) (pfx ++ "switch.") st with
      | .error e => .error e
      | .ok (_, st) =>
          let st := st.addlinemap line (pfx ++ "switch.")
          match body with
          | .Compound items _ =>
              match convert c items with
              | .error e => .error e
              | .ok none => .error (.notSupported "Switch statement" (some line))
              | .ok (some stmt) =>
                  let insw := st.inswitch
                  match visit f stmt (pfx ++ "switch.") {st with inswitch := true} with
                  | .error e => .error e
                  | .ok (res, st) =>
                      let st := st.addlinemap line (pfx ++ "switch.")
                      .ok (res, {st with inswitch := insw})
          | _ => .error (.notSupported "Switch statement" (some line))
  -- there is no visit_Case / visit_Default method in the source; visiting
  -- such a node directly fails in the dispatcher
  | .Case _ _ _ => .error (.attributeError "visit_Case")
  | .Default _ _ => .error (.attributeError "visit_Default")
  | .Break line => visit_Break line pfx st
  | .Continue line => visit_Continue line pfx st
  -- visit_Return (lines 621-632)
  | .Return e line =>
      match visit_expr f e pfx st with
      | .error er => .error er
      | .ok (ex, st) =>
          let st := st.addlinemap line pfx
          let ex := if ex.truthy then ex else .const "top" (some line)
          .ok (.vnone, st.addexpr VAR_RET ex none)
  | .Goto nm line => visit_Goto nm line pfx st
  -- visit_FuncDef (lines 90-124)
  | .FuncDef decl body line =>
      let st := {st with fncdef := true}
      match decl with
      | .Decl _ (.FuncDecl argsO tyN _) _ _ =>
          match visit f tyN pfx st with
          | .error e => .error e
          | .ok (tres, st) =>
              match tres with
              | .vtriple nmO rtype _ =>
                  match nmO with
                  | none => .error (.typeError "cannot concatenate None")
                  | some name =>
                      match (match argsO with
                             | none => .ok (([] : List ParamEntry), st)
                             | some ps =>
                                 collect_params f ps false (some line)
                                   (pfx ++ name ++ ".") st
                             : Except Err (List ParamEntry × PState)) with
                      | .error e => .error e
                      | .ok (params, st) =>
                          let st := {st with fncdef := false}
                          let st := st.addfnc name params rtype
                          match addtypesParams params st with
                          | .error e => .error e
                          | .ok st =>
                              let (entryloc, st) := st.addloc
                              let st := {st with loc := entryloc}
                              match visit f body (pfx ++ name ++ ".") st with
                              | .error e => .error e
                              | .ok (_, st) =>
                                  let st := st.addlinemap line (pfx ++ name ++ ".")
                                  .ok (.vnone, st.endfnc)
              | _ => .error (.typeError "FuncDef type")
      | _ => .error (.attributeError "type")
  -- visit_FuncDecl (lines 126-158)
  | .FuncDecl argsO tyN line =>
      let st := {st with fncdef := true}
      match visit f tyN pfx st with
      | .error e => .error e
      | .ok (tres, st) =>
          match tres with
          | .vtriple nmO rtype _ =>
              match (match argsO with
                     | none => .ok (([] : List ParamEntry), st)
                     | some ps => collect_params f ps true none pfx st
                     : Except Err (List ParamEntry × PState)) with
              | .error e => .error e
              | .ok (params, st) =>
                  let st := {st with fncdef := false}
                  let st := st.addfnc (nmO.getD "") params rtype
                  match addtypesParams params st with
                  | .error e => .error e
                  | .ok st =>
                      let st := st.endfnc
                      let st := st.addlinemap line pfx
                      .ok (.vtriple nmO rtype none, st)
          | _ => .error (.typeError "FuncDecl type")
  -- visit_Decl (lines 703-733); the name and type come from the triple
  -- returned by visiting the type node, and a duplicate global type
  -- registration warns and returns early
  | .Decl _ tyN initN line =>
      match visit f tyN pfx st with
      | .error e => .error e
      | .ok (tres, st) =>
          match tres with
          | .vtriple tname ty dim =>
              let st := st.addlinemap line pfx
              match visit_expr f initN pfx st with
              | .error e => .error e
              | .ok (initv, st) =>
                  match (if st.fncdef then Sum.inl st
                         else
                           match st.addtype tname ty with
                           | .error _ =>
                               Sum.inr (st.addwarn
                                 ("Ignored global definition at line " ++
                                   Nat.repr line))
                           | .ok st2 => Sum.inl st2
                         : Sum PState PState) with
                  | Sum.inr st => .ok (.vnone, st)
                  | Sum.inl st =>
                      let initT := initv.truthy
                      let dimT := match dim with
                                  | some d => d.truthy
                                  | none => false
                      if initT && dimT then
                        .error (.notSupported "Array Init and Create together"
                                  (some line))
                      else
                        let st := if initT then st.addexpr (tname.getD "") initv none
                                  else st
                        match (if dimT && !st.fncdef then
                                 match dim with
                                 | some d =>
                                     match d.lineAttr with
                                     | .error e => .error e
                                     | .ok dl =>
                                         .ok (st.addexpr (tname.getD "")
                                               (.op "ArrayCreate" [d] dl) none)
                                 | none => .ok st
                               else .ok st : Except Err PState) with
                        | .error e => .error e
                        | .ok st => .ok (.vtriple tname ty dim, st)
          | _ => .error (.typeError "Decl type")
  -- visit_TypeDecl (lines 762-769)
  | .TypeDecl dn tyN =>
      match visit f tyN pfx st with
      | .error e => .error e
      | .ok (r, st) =>
          match r with
          | .vstr s => .ok (.vtriple dn s none, st)
          | _ => .error (.typeError "TypeDecl type")
  -- visit_IdentifierType (lines 771-778)
  | .IdentifierType names => .ok (.vstr (typeSyn (joinUnder names)), st)
  -- visit_Typename (lines 780-788)
  | .Typename tyN line =>
      match visit f tyN pfx st with
      | .error e => .error e
      | .ok (r, st) =>
          match r with
          | .vtriple _ nm _ => .ok (.vstr nm, st.addlinemap line pfx)
          | _ => .error (.typeError "Typename type")
termination_by structural f _ _ _ => f

/-- Modelled from the spec: `visit_expr` of parser.py — the Expression
Builder contract of spec 4.1: visit the node and hand back the built
expression value (`None` stays `None`, a comma list stays a Python
list). -/
def visit_expr : Nat → Option Node → String → PState → Except Err (Expr × PState)
| 0, _, _, _ => .error .outOfFuel
| _+1, none, _, st => .ok (.pynone, st)
| f+1, some n, pfx, st =>
    match visit f n pfx st with
    | .error e => .error e
    | .ok (r, st) => .ok (r.toExpr, st)
termination_by structural f _ _ _ => f

/-- The `self.visit(node.args) or []` idiom of `visit_FuncCall` (c_parser.py
line 417). -/
def visit_args : Nat → Option Node → String → PState → Except Err (List Expr × PState)
| 0, _, _, _ => .error .outOfFuel
| _+1, none, _, st => .ok ([], st)
| f+1, some a, pfx, st =>
    match visit f a pfx st with
    | .error e => .error e
    | .ok (r, st) => .ok (r.argsList, st)
termination_by structural f _ _ _ => f

/-- The element loop of `visit_ExprList` (c_parser.py line 567): each
remaining (expression, prefix-character) pair is visited in order, the
character serving as the scope prefix of that element. -/
def visit_exprs_zipped : Nat → List (Node × Char) → PState → Except Err (List Expr × PState)
| 0, _, _ => .error .outOfFuel
| _+1, [], st => .ok ([], st)
| f+1, (n, c) :: rest, st =>
    match visit_expr f (some n) (String.singleton c) st with
    | .error e => .error e
    | .ok (e1, st) =>
        match visit_exprs_zipped f rest st with
        | .error e => .error e
        | .ok (es, st) => .ok (e1 :: es, st)
termination_by structural f _ _ => f

/-- The statement loop of `visit_Compound` (c_parser.py lines 166-171): a
bare function-call expression statement is recorded as an update of the
discard variable. -/
def visit_items : Nat → List Node → String → PState → Except Err PState
| 0, _, _, _ => .error .outOfFuel
| _+1, [], _, st => .ok st
| f+1, item :: rest, pfx, st =>
    match visit f item pfx st with
    | .error e => .error e
    | .ok (res, st) =>
        let st := match res with
          | .vexpr (.op nm args l) =>
              if nm = "FuncCall" then st.addexpr "_" (.op nm args l) none else st
          | _ => st
        visit_items f rest pfx st
termination_by structural f _ _ _ => f

/-- The parameter loop of `visit_FuncDef` (c_parser.py lines 99-111) and
`visit_FuncDecl` (lines 134-146): visit each parameter, record the line map
entry per parameter when a line is given (FuncDef only), classify the
result, and collect the surviving entries in order. -/
def collect_params : Nat → List Node → Bool → Option Nat → String → PState → Except Err (List ParamEntry × PState)
| 0, _, _, _, _, _ => .error .outOfFuel
| _+1, [], _, _, _, st => .ok ([], st)
| f+1, p :: rest, isdecl, lm, pfx, st =>
    match visit f p pfx st with
    | .error e => .error e
    | .ok (pres, st) =>
        let st := match lm with
                  | some line => st.addlinemap line pfx
                  | none => st
        match (if isdecl then paramEntryOfDecl pres else paramEntryOf pres) with
        | .error e => .error e
        | .ok ent =>
            match collect_params f rest isdecl lm pfx st with
            | .error e => .error e
            | .ok (entries, st) =>
                .ok ((match ent with
                      | some x => x :: entries
                      | none => entries), st)
termination_by structural f _ _ _ _ _ => f

/-- Modelled from the spec: `visit_if` of parser.py (spec 4.2 If): build
the condition, create a then-branch location and a join location (and an
else-branch location when an else is present); visit the branches with the
branch location current; both branches converge at the join, which becomes
the new current location; a missing else is a direct transition to the
join. -/
def visit_if : Nat → Node → Node → Option Node → String → PState → Except Err (VisitRes × PState)
| 0, _, _, _, _, _ => .error .outOfFuel
| f+1, cond, tstmt, estmt, pfx, st =>
    match visit_expr f (some cond) pfx st with
    | .error e => .error e
    | .ok (cv, st) =>
        let preloc := st.loc
        let (thenloc, st) := st.addloc
        let (joinloc, st) := st.addloc
        let st := st.addtrans preloc (.bexpr cv) thenloc
        let st := {st with loc := thenloc}
        match visit f tstmt pfx st with
        | .error e => .error e
        | .ok (_, st) =>
            let st := st.addtrans st.loc .btrue joinloc
            match estmt with
            | none =>
                let st := st.addtrans preloc (.bexpr (.op "!" [cv] none)) joinloc
                .ok (.vnone, {st with loc := joinloc})
            | some es =>
                let (elseloc, st) := st.addloc
                let st := st.addtrans preloc (.bexpr (.op "!" [cv] none)) elseloc
                let st := {st with loc := elseloc}
                match visit f es pfx st with
                | .error e => .error e
                | .ok (_, st) =>
                    let st := st.addtrans st.loc .btrue joinloc
                    .ok (.vnone, {st with loc := joinloc})
termination_by structural f _ _ _ _ _ => f

/-- Modelled from the spec: `visit_loop` of parser.py (spec 4.2 While /
Do-while / For): optional init statement once; condition and exit
locations; an update-clause location when an update clause is present; the
loop-stack entry (condition-location, exit-location, continue-target) is
pushed around the body and popped afterwards; on a do-while (the do-first
flag) the body is entered unconditionally before the first condition test,
otherwise the condition location is entered first; the update clause sits
on the back edge; the exit location becomes current. -/
def visit_loop : Nat → Option Node → Option Node → Option Node → Node → Bool → String → String → PState → Except Err (VisitRes × PState)
| 0, _, _, _, _, _, _, _, _ => .error .outOfFuel
| f+1, ini, cond, nxt, body, dofirst, _nm, pfx, st =>
    match (match ini with
           | none => .ok (VisitRes.vnone, st)
           | some i => visit f i pfx st : Except Err (VisitRes × PState)) with
    | .error e => .error e
    | .ok (_, st) =>
        let (condloc, st) := st.addloc
        let (exitloc, st) := st.addloc
        let (contloc, st) :=
          match nxt with
          | some _ => let (ul, st) := st.addloc; (some ul, st)
          | none => (none, st)
        match visit_expr f cond pfx st with
        | .error e => .error e
        | .ok (cv, st) =>
            let st := st.pushloop ⟨condloc, exitloc, contloc⟩
            let (bodyloc, st) := st.addloc
            let st :=
              if dofirst then st.addtrans st.loc .btrue bodyloc
              else st.addtrans st.loc .btrue condloc
            let st := st.addtrans condloc (.bexpr cv) bodyloc
            let st := {st with loc := bodyloc}
            match visit f body pfx st with
            | .error e => .error e
            | .ok (_, st) =>
                match (match nxt, contloc with
                       | some nx, some ul =>
                           let st := st.addtrans st.loc .btrue ul
                           let st := {st with loc := ul}
                           (match visit_expr f (some nx) pfx st with
                            | .error e => .error e
                            | .ok (_, st) => .ok st)
                       | _, _ => .ok st : Except Err PState) with
                | .error e => .error e
                | .ok st =>
                    let st := st.addtrans st.loc .btrue condloc
                    let st := st.addtrans condloc (.bexpr (.op "!" [cv] none)) exitloc
                    let st := st.poploop
                    .ok (.vnone, {st with loc := exitloc})
termination_by structural f _ _ _ _ _ _ _ _ => f

end

/-! Projections used to state facts about visit results. -/

/-- Whether a visit succeeded. -/
def okb (r : Except Err (VisitRes × PState)) : Bool :=
  match r with
  | .ok _ => true
  | .error _ => false

/-- The update log of a successful visit. -/
def updatesOf (r : Except Err (VisitRes × PState)) : Option (List Upd) :=
  match r with
  | .ok (_, st) => some st.exprs
  | .error _ => none

/-- The warning list of a successful visit. -/
def warnsOf (r : Except Err (VisitRes × PState)) : Option (List String) :=
  match r with
  | .ok (_, st) => some st.warns
  | .error _ => none

/-- The transition list of a successful visit. -/
def transOf (r : Except Err (VisitRes × PState)) : Option (List Transition) :=
  match r with
  | .ok (_, st) => some st.trans
  | .error _ => none

/-- The registered function records of a successful visit. -/
def fncsOf (r : Except Err (VisitRes × PState)) : Option (List Fnc) :=
  match r with
  | .ok (_, st) => some st.fncs
  | .error _ => none

/-- Claim C8: visiting a goto node anywhere, in any traversal state, raises
the unsupported-construct failure (with no source line attached, as in the
source), regardless of reachability or surrounding context; the dispatcher
and the handler agree. -/
theorem c8_goto_always_fails (f : Nat) (nm : String) (line : Nat)
    (pfx : String) (st : PState) :
    visit (f+1) (.Goto nm line) pfx st =
      .error (.notSupported "Not supporting GOTO - it is considered harmful." none)
    ∧ visit_Goto nm line pfx st =
      .error (.notSupported "Not supporting GOTO - it is considered harmful." none) := by
  constructor
  · simp only [visit, visit_Goto]
  · rfl

/-- Claim C7: visiting a while, do-while or for node while the inside-switch
flag is set raises the unsupported-construct failure carrying the loop node
source line. -/
theorem c7_loop_inside_switch_fails (f : Nat) (c b : Node) (ini cnd nxt : Option Node)
    (l1 l2 l3 : Nat) (pfx : String) (st : PState) (h : st.inswitch = true) :
    visit (f+1) (.While c b l1) pfx st =
      .error (.notSupported "Loop inside switch" (some l1))
    ∧ visit (f+1) (.DoWhile c b l2) pfx st =
      .error (.notSupported "Loop inside switch" (some l2))
    ∧ visit (f+1) (.For ini cnd nxt b l3) pfx st =
      .error (.notSupported "Loop inside switch" (some l3)) := by
  refine ⟨?_, ?_, ?_⟩ <;> simp only [visit, h, if_pos]

theorem c7_loop_inside_switch_fails_witness :
    ({ PState.init with inswitch := true } : PState).inswitch = true
    ∧ visit 9 (.While (.ID "c" 8) (.Compound [] 8) 8) "p"
        { PState.init with inswitch := true } =
      .error (.notSupported "Loop inside switch" (some 8)) :=
  ⟨rfl, (c7_loop_inside_switch_fails 8 (.ID "c" 8) (.Compound [] 8)
      none none none 8 8 8 "p" { PState.init with inswitch := true } rfl).1⟩

/-- Claim C5: an output call whose first argument is a literal (constant)
format schedules exactly one update on the output-stream pseudo-variable,
of the form StrAppend(output, StrFormat(normalized-format, args)), where the
normalization rewrites the long-variant numeric specifiers to their base
forms; in particular the literal format token containing `%ld\n` is
rewritten to contain `%d\n`, and an appended update extends the log by
exactly that one element. -/
theorem c5_printf_output_update (line : Nat) (v : String) (l : Option Nat)
    (args : List Expr) (pfx : String) (st : PState) :
    visit_printf line (.const v l :: args) pfx st =
      .ok (.vnone,
        (st.addexpr VAR_OUT
          (.op "StrAppend"
            [.var VAR_OUT none,
             .op "StrFormat" (Expr.const (normFormat v) l :: args) (some line)]
            (some line)) none).addlinemap line pfx)
    ∧ (st.addexpr VAR_OUT
          (.op "StrAppend"
            [.var VAR_OUT none,
             .op "StrFormat" (Expr.const (normFormat v) l :: args) (some line)]
            (some line)) none).exprs
        = st.exprs ++
          [⟨VAR_OUT,
            .op "StrAppend"
              [.var VAR_OUT none,
               .op "StrFormat" (Expr.const (normFormat v) l :: args) (some line)]
              (some line)⟩]
    ∧ normFormat "\"%ld\n\"" = "\"%d\n\"" :=
  ⟨rfl, rfl, rfl⟩

/-- Claim C9: a function definition whose parameter list is a lone `void`
parameter registers a function record with an empty parameter list (here
with return type `int` and an arbitrary body-free compound; the record is
appended exactly once). -/
theorem c9_lone_void_registers_no_params (f : Nat) (name : String)
    (ld ld2 lt lb line : Nat) (pfx : String) (st : PState) :
    fncsOf (visit (f+6)
      (.FuncDef (.Decl name
          (.FuncDecl (some [.Typename (.TypeDecl none (.IdentifierType ["void"])) lt])
            (.TypeDecl (some name) (.IdentifierType ["int"])) ld)
          none ld2)
        (.Compound [] lb) line) pfx st)
      = some (st.fncs ++ [⟨name, [], "int"⟩]) := by
  simp +decide [visit, collect_params, visit_items, addtypesParams, paramEntryOf,
    PState.addfnc, PState.addlinemap, PState.addloc, PState.endfnc, fncsOf,
    typeSyn, joinUnder, TYPE_SYNONYMS]

/-- A traversal state inside a switch-desugared region nested in a loop:
the inside-switch flag is set, generation is not suppressed, and the loop
stack holds one entry (condition location 2, exit location 3, continue
target 4); the current location is 5. -/
def switchLoopState : PState :=
  { PState.init with inswitch := true,
                     loopstack := [⟨2, 3, some 4⟩], loc := 5, nextloc := 6 }

/-- Counterexample to claim C3: in one and the same state — inside a
switch-desugared region, generation not suppressed, a non-empty loop
stack — `break` is a no-op (same state, no transition) but `continue` is
not: it creates a location and adds a transition to the continue target, so
continue does not follow the same applicability rule as break. -/
theorem c3_continue_ignores_inswitch_cex :
    visit 5 (.Break 7) "p" switchLoopState = .ok (.vnone, switchLoopState)
    ∧ transOf (visit 5 (.Continue 7) "p" switchLoopState) = some [⟨5, .btrue, 4⟩]
    ∧ switchLoopState.trans = [] :=
  ⟨rfl, rfl, rfl⟩

/-- Claim C3 as amended: `continue` is a no-op only when break/continue
generation is suppressed — the inside-switch flag is not consulted (unlike
`break`, which is also a no-op inside a switch-desugared region); otherwise
an empty loop stack records a non-fatal warning and adds nothing, and a
non-empty loop stack adds a transition from the current location to the
innermost entry's continue target (the update-clause location when present,
else the condition location). -/
theorem c3_continue_behavior (f line : Nat) (pfx : String) (st : PState) :
    (st.nobcs = true → visit_Continue line pfx st = .ok (.vnone, st))
    ∧ (st.nobcs = false → st.loopstack = [] →
        visit_Continue line pfx st =
          .ok (.vnone,
            st.addwarn ("continue outside loop at line " ++ Nat.repr line)))
    ∧ (∀ (ll : LoopEntry) (rest : List LoopEntry),
        st.nobcs = false → st.loopstack = ll :: rest →
        visit_Continue line pfx st =
          .ok (.vnone,
            (({st with hasbcs := true, loc := st.nextloc,
                       nextloc := st.nextloc + 1}).addtrans
               st.loc .btrue ll.contTarget).addlinemap line pfx))
    ∧ (st.inswitch = true → visit_Break line pfx st = .ok (.vnone, st))
    ∧ visit (f+1) (.Continue line) pfx st = visit_Continue line pfx st := by
  refine ⟨?_, ?_, ?_, ?_, ?_⟩
  · intro h
    simp only [visit_Continue, h, if_pos]
  · intro h hl
    simp only [visit_Continue, h, Bool.false_eq_true, if_false, PState.lastloop,
      hl, List.head?]
  · intro ll rest h hl
    simp only [visit_Continue, h, Bool.false_eq_true, if_false, PState.lastloop,
      hl, List.head?]
    rfl
  · intro h
    simp only [visit_Break, h, Bool.true_or, if_pos]
  · simp only [visit]

theorem c3_continue_behavior_witness :
    switchLoopState.nobcs = false
    ∧ transOf (visit_Continue 7 "p" switchLoopState) = some [⟨5, .btrue, 4⟩] := by
  constructor
  · rfl
  · rw [(c3_continue_behavior 0 7 "p" switchLoopState).2.2.1
      ⟨2, 3, some 4⟩ [] rfl rfl]
    rfl

/-- Counterexample to claim C10: for `a[0] = (b, c);` (index lvalue, comma
rvalue) the scheduled update embeds the whole Python list inside the
`ArrayAssign` operation instead of reducing it to the last expression `c`:
the list unwrap of c_parser.py line 217 runs only after the `ArrayAssign`
rewrite of line 208 has consumed the raw list. -/
theorem c10_list_rvalue_cex :
    updatesOf (visit 20 (.Assignment "=" (.ArrayRef (.ID "a" 5) (.Constant "0" 5) 5)
        (.ExprList [.ID "b" 5, .ID "c" 5] 5) 5) "main." PState.init)
    = some [⟨"a", .op "ArrayAssign"
              [.var "a" (some 5), .const "0" (some 5),
               .pylist [.var "b" (some 5), .var "c" (some 5)]] (some 5)⟩] :=
  rfl

/-- Claim C10 as amended: for an assignment with operator `=` and a plain
variable lvalue whose rvalue is a comma list, the expressions of the list
are visited in order (each element paired by the source with one character
of the scope prefix), their side effects are scheduled by that very
traversal, and the value scheduled as the update of the lvalue is the last
of the visited expressions; an index lvalue instead embeds the whole list
in the `ArrayAssign` rewrite (see the counterexample). -/
theorem c10_exprlist_last_value (f : Nat) (v : String) (lv : Nat)
    (es : List Node) (le line : Nat) (pfx : String) (st st2 : PState)
    (vals : List Expr) (e0 : Expr)
    (hv : CONSTS.contains v = false)
    (hz : visit_exprs_zipped (f+1) (es.zip pfx.toList)
        (({(st.addlinemap line pfx) with postincdec := 0}).addlinemap le pfx)
        = .ok (vals, st2))
    (hlast : vals.getLast? = some e0) :
    visit (f+3) (.Assignment "=" (.ID v lv) (.ExprList es le) line) pfx st =
      .ok (.vexpr (.var v (some lv)),
        ({st2 with postincdec := st.postincdec}).addexpr v e0
          (if st2.postincdec ≠ 0 then some (-(st2.postincdec : Int)) else none)) := by
  cases vals with
  | nil => simp at hlast
  | cons a as =>
      simp only [visit, visit_expr, hv, Bool.false_eq_true, if_false]
      rw [hz]
      simp [assignRhs, assignFinish, VisitRes.truthy, VisitRes.toExpr,
        hlast, Expr.copy]
      rfl

/-- The traversal state after the rvalue of the witness statement
`y = (x++, b)` has been built: one postfix update scheduled, counter 1. -/
def c10MidState : PState :=
  { PState.init with
      exprs := [⟨"x", .op "+" [.var "x" (some 6), .const "1" none] (some 6)⟩],
      postincdec := 1,
      linemap := [(6, "main."), (6, "main.")] }

theorem c10_exprlist_last_value_witness :
    updatesOf (visit (17+3) (.Assignment "="
        (.ID "y" 6)
        (.ExprList [.UnaryOp "p++" (.ID "x" 6) 6, .ID "b" 6] 6) 6)
      "main." PState.init)
    = some [⟨"y", .var "b" (some 6)⟩,
            ⟨"x", .op "+" [.var "x" (some 6), .const "1" none] (some 6)⟩] := by
  rw [c10_exprlist_last_value 17 "y" 6 [.UnaryOp "p++" (.ID "x" 6) 6, .ID "b" 6]
    6 6 "main." PState.init c10MidState
    [.var "x" (some 6), .var "b" (some 6)] (.var "b" (some 6))
    rfl rfl rfl]
  rfl

/-- Counterexample to claim C2: for `y = x++ + ++z;` the scheduled updates
come out as postfix-increment of x, then the assignment to y, then the
prefix-increment of z: the assignment update was inserted one position from
the end of the log (the counter is 1), which is after — not ahead of — the
most recently scheduled postfix update (the x update at position 0). -/
theorem c2_insert_position_cex :
    updatesOf (visit 20 (.Assignment "=" (.ID "y" 4)
        (.BinaryOp "+" (.UnaryOp "p++" (.ID "x" 4) 4)
          (.UnaryOp "++" (.ID "z" 4) 4) 4) 4) "main." PState.init)
    = some [⟨"x", .op "+" [.var "x" (some 4), .const "1" none] (some 4)⟩,
            ⟨"y", .op "+" [.var "x" (some 4), .var "z" (some 4)] (some 4)⟩,
            ⟨"z", .op "+" [.var "z" (some 4), .const "1" none] (some 4)⟩]
    ∧ (updatesOf (visit 20 (.Assignment "=" (.ID "y" 4)
        (.BinaryOp "+" (.UnaryOp "p++" (.ID "x" 4) 4)
          (.UnaryOp "++" (.ID "z" 4) 4) 4) 4) "main." PState.init)).map
        (List.map Upd.var)
      = some ["x", "y", "z"] :=
  ⟨rfl, rfl⟩

/-- Claim C2 as amended: each postfix `p++`/`p--` on a variable schedules
`var := var op 1` and increments the pending-postfix counter; the counter
is saved and reset to zero before building the assignment rvalue and
restored afterwards, so nested assignments do not cross-contaminate; and
when the counter is non-zero the assignment update is inserted counter-many
positions from the end of the log — which places it directly before the
most recently scheduled postfix updates exactly when those are the last
counter-many entries.  For the statement `y = ++x + x++` on one variable
the scheduled updates are prefix-increment, assignment, postfix-increment:
source left-to-right evaluation order, not recursion order. -/
theorem c2_assignment_postfix_counter (f : Nat) (aop : String) (lvN rvN : Node)
    (line : Nat) (pfx : String) (st st1 st2 : PState) (v : String)
    (lv : Option Nat) (rres : VisitRes)
    (hl : visit_expr f (some lvN) pfx st = .ok (.var v lv, st1))
    (hr : visit f rvN pfx {(st1.addlinemap line pfx) with postincdec := 0}
            = .ok (rres, st2)) :
    (visit (f+1) (.Assignment aop lvN rvN line) pfx st =
      match assignRhs aop (.var v lv)
              (if rres.truthy then rres else .vexpr (.const "?" (some line)))
              line with
      | .error e => .error e
      | .ok rv2 =>
          assignFinish (.var v lv) rv2 st2.postincdec line
            {st2 with postincdec := st1.postincdec})
    ∧ (∀ (g : Nat) (x : String) (lx uline : Nat) (qfx : String) (sq : PState),
        CONSTS.contains x = false →
        visit (g+3) (.UnaryOp "p++" (.ID x lx) uline) qfx sq =
          .ok (.vexpr (.var x (some lx)),
            {(sq.addexpr x (.op "+" [.var x (some lx), .const "1" none]
                (some uline)) none) with
              postincdec := sq.postincdec + 1}))
    ∧ updatesOf (visit 20 (.Assignment "=" (.ID "y" 4)
        (.BinaryOp "+" (.UnaryOp "++" (.ID "x" 4) 4)
          (.UnaryOp "p++" (.ID "x" 4) 4) 4) 4) "main." PState.init)
      = some [⟨"x", .op "+" [.var "x" (some 4), .const "1" none] (some 4)⟩,
              ⟨"y", .op "+" [.var "x" (some 4), .var "x" (some 4)] (some 4)⟩,
              ⟨"x", .op "+" [.var "x" (some 4), .const "1" none] (some 4)⟩] := by
  refine ⟨?_, ?_, rfl⟩
  · simp only [visit, hl, hr]
    rfl
  · intro g x lx uline qfx sq hx
    have hx2 : ¬ x ∈ CONSTS := by simpa using hx
    simp +decide [visit, visit_expr, hx2, Expr.copy, VisitRes.toExpr]
    all_goals rfl

/-- The traversal state after the rvalue of the witness statement
`y = 5` has been built: the line map entry of the assignment is recorded. -/
def c2MidState : PState :=
  { PState.init with linemap := [(4, "m")] }

theorem c2_assignment_postfix_counter_witness :
    updatesOf (visit (9+1) (.Assignment "=" (.ID "y" 4) (.Constant "5" 4) 4)
      "m" PState.init)
      = some [⟨"y", .const "5" (some 4)⟩] := by
  rw [(c2_assignment_postfix_counter 9 "=" (.ID "y" 4) (.Constant "5" 4) 4 "m"
    PState.init PState.init c2MidState
    "y" (some 4) (.vexpr (.const "5" (some 4))) rfl rfl).1]
  rfl

/-- Claim C1: a ternary builds its condition, snapshots the update-log
length, builds both branches; if the log did not grow (and the branches
only ever extend the log, stated as the prefix-preservation hypothesis) the
log is unchanged and the ternary is the pure `ite` operation over the three
built expressions; if the log grew, exactly the newly scheduled updates are
removed — the log passed on is the snapshot — and the whole ternary is
re-visited as an if/else control-flow statement via the statement builder,
with zero leftover updates from the rolled-back attempt. -/
theorem c1_ternary_pure_or_split (f : Nat) (c t e : Node) (line : Nat)
    (pfx : String) (st st1 st2 st3 : PState) (cv tv ev : Expr)
    (hc : visit_expr f (some c) pfx st = .ok (cv, st1))
    (ht : visit_expr f (some t) pfx (st1.addlinemap line pfx) = .ok (tv, st2))
    (he : visit_expr f (some e) pfx st2 = .ok (ev, st3))
    (hpre : st3.exprs.take st1.exprs.length = st1.exprs) :
    (st3.exprs.length = st1.exprs.length →
       visit (f+1) (.TernaryOp c t e line) pfx st =
         .ok (.vexpr (.op "ite" [cv, tv, ev] (some line)), st3)
       ∧ st3.exprs = st1.exprs)
    ∧ (st1.exprs.length < st3.exprs.length →
       visit (f+1) (.TernaryOp c t e line) pfx st =
         visit_if f c t (some e) pfx {st3 with exprs := st1.exprs}) := by
  constructor
  · intro hlen
    refine ⟨?_, ?_⟩
    · simp only [visit]
      rw [hc]
      dsimp only
      rw [ht]
      dsimp only
      rw [he]
      dsimp only [PState.numexprs, PState.addlinemap]
      rw [if_neg (by omega)]
    · rw [← hpre, ← hlen, List.take_length]
  · intro hlen
    have hstate : st3.rmlastexprs (st3.exprs.length - st1.exprs.length)
        = {st3 with exprs := st1.exprs} := by
      simp only [PState.rmlastexprs]
      have h2 : st3.exprs.length - (st3.exprs.length - st1.exprs.length)
          = st1.exprs.length := by omega
      rw [h2, hpre]
    simp only [visit]
    rw [hc]
    dsimp only
    rw [ht]
    dsimp only
    rw [he]
    dsimp only [PState.numexprs, PState.addlinemap]
    rw [if_pos (by omega)]
    rw [hstate]

/-- The traversal state after building both branches of the witness ternary
`c ? x++ : 0`: the postfix update is in the log, the counter is 1, and the
ternary line-map entry is recorded. -/
def c1SideState : PState :=
  { PState.init with
      exprs := [⟨"x", .op "+" [.var "x" (some 13), .const "1" none] (some 13)⟩],
      postincdec := 1,
      linemap := [(13, "m")] }

/-- The same state after the rollback of the branch update: the log is back
to the snapshot (empty), everything else is kept. -/
def c1RolledBack : PState :=
  { PState.init with postincdec := 1, linemap := [(13, "m")] }

theorem c1_ternary_pure_or_split_witness :
    (visit (10+1) (.TernaryOp (.ID "c" 12) (.ID "a" 12) (.ID "b" 12) 12) "m"
        PState.init
      = .ok (.vexpr (.op "ite"
          [.var "c" (some 12), .var "a" (some 12), .var "b" (some 12)]
          (some 12)), PState.init.addlinemap 12 "m"))
    ∧ (visit (10+1) (.TernaryOp (.ID "c" 13) (.UnaryOp "p++" (.ID "x" 13) 13)
          (.Constant "0" 13) 13) "m" PState.init
      = visit_if 10 (.ID "c" 13) (.UnaryOp "p++" (.ID "x" 13) 13)
          (some (.Constant "0" 13)) "m" c1RolledBack) :=
  ⟨((c1_ternary_pure_or_split 10 (.ID "c" 12) (.ID "a" 12) (.ID "b" 12) 12 "m"
      PState.init PState.init (PState.init.addlinemap 12 "m")
      (PState.init.addlinemap 12 "m")
      (.var "c" (some 12)) (.var "a" (some 12)) (.var "b" (some 12))
      rfl rfl rfl rfl).1 rfl).1,
   (c1_ternary_pure_or_split 10 (.ID "c" 13) (.UnaryOp "p++" (.ID "x" 13) 13)
      (.Constant "0" 13) 13 "m" PState.init PState.init c1SideState c1SideState
      (.var "c" (some 13)) (.var "x" (some 13)) (.const "0" (some 13))
      rfl rfl rfl rfl).2 (by decide)⟩

/-- Whether a node is a compound statement. -/
def Node.isCompound : Node → Bool
| .Compound _ _ => true
| _ => false

/-- Counterexample to claim C4: a switch whose body is [case 1, default,
case 2] — a non-trailing default — does not raise the unsupported-construct
failure: the conversion silently stops at the misplaced default, dropping
it and the following case, and the truncated single-case if chain is
visited successfully. -/
theorem c4_nontrailing_default_cex :
    okb (visit 30 (.Switch (.ID "v" 14)
        (.Compound [.Case (.Constant "1" 15) [.Break 15] 15,
                    .Default [.Break 16] 16,
                    .Case (.Constant "2" 17) [.Break 17] 17] 14) 14)
      "main." PState.init) = true
    ∧ convert (.ID "v" 14)
        [.Case (.Constant "1" 15) [.Break 15] 15,
         .Default [.Break 16] 16,
         .Case (.Constant "2" 17) [.Break 17] 17]
      = .ok (some (.If (.BinaryOp "==" (.ID "v" 14) (.Constant "1" 15) 15)
          (.Compound [.Break 15] 15) none 15)) :=
  ⟨rfl, rfl⟩

/-- Claim C4 as amended: a switch body that is not a single compound
statement fails with the unsupported-construct error, as does a compound
whose conversion yields nothing (first group neither a case nor a lone
trailing default); a compound of case groups with an optional trailing
default converts to the nested if chain, which is visited with the
inside-switch flag set and restored afterwards; but a non-trailing
default does not fail: conversion stops there, silently dropping the
default and every following group. -/
theorem c4_switch_shape (f : Nat) (c : Node) (items : List Node)
    (line lc : Nat) (pfx : String) (st st1 : PState) (cv : Expr)
    (hc : visit_expr f (some c) (pfx ++ "switch.") st = .ok (cv, st1)) :
    (convert c items = .ok none →
       visit (f+1) (.Switch c (.Compound items lc) line) pfx st =
         .error (.notSupported "Switch statement" (some line)))
    ∧ (∀ s, convert c items = .ok (some s) →
       visit (f+1) (.Switch c (.Compound items lc) line) pfx st =
         (match visit f s (pfx ++ "switch.")
             {(st1.addlinemap line (pfx ++ "switch.")) with inswitch := true} with
          | .error e => .error e
          | .ok (res, st2) =>
              .ok (res, {(st2.addlinemap line (pfx ++ "switch.")) with
                         inswitch := st1.inswitch})))
    ∧ (∀ body, body.isCompound = false →
       visit (f+1) (.Switch c body line) pfx st =
         .error (.notSupported "Switch statement" (some line)))
    ∧ (∀ (e1 : Node) (s1 d : List Node) (l1 ld : Nat),
        convert c [.Case e1 s1 l1, .Default d ld]
          = .ok (some (.If (.BinaryOp "==" c e1 e1.lineOf)
              (.Compound s1 l1) (some (.Compound d ld)) e1.lineOf)))
    ∧ (∀ (e1 g : Node) (s1 d rest0 : List Node) (l1 ld : Nat),
        convert c (.Case e1 s1 l1 :: .Default d ld :: g :: rest0)
          = .ok (some (.If (.BinaryOp "==" c e1 e1.lineOf)
              (.Compound s1 l1) none e1.lineOf))) := by
  refine ⟨?_, ?_, ?_, ?_, ?_⟩
  · intro hcv
    simp only [visit]
    rw [hc]
    dsimp only
    rw [hcv]
  · intro s hcv
    simp only [visit]
    rw [hc]
    dsimp only
    rw [hcv]
    dsimp only
    rfl
  · intro body hb
    cases body <;> simp [Node.isCompound] at hb <;>
      (simp only [visit]; rw [hc])
  · intro e1 s1 d l1 ld
    rfl
  · intro e1 g s1 d rest0 l1 ld
    rfl

/-- Following the claim: the typed head-pop/tail-advance update pair
scheduled for each (specifier, target-variable) step, in order. -/
def claimScanfUpdates (line : Nat) : List (String × String) → List Upd
| [] => []
| (fs, v) :: rest =>
    ⟨v, .op "ListHead" [.const (scanfTypeName fs).1 none, .var VAR_IN none]
       (some line)⟩ ::
    ⟨VAR_IN, .op "ListTail" [.var VAR_IN none] (some line)⟩ ::
    claimScanfUpdates line rest

/-- Following the claim: the invalid-specifier warnings the processed
specifiers produce (none for specifiers recognized by the format regex or
for the wildcard). -/
def claimScanfWarns (line : Nat) (fs : List String) : List String :=
  fs.filterMap (fun f =>
    if (scanfTypeName f).2 then
      some ("Invalid scanf format at line " ++ Nat.repr line)
    else none)

/-- The address-of-a-variable argument shape accepted by scanf. -/
def addrOfVar (q : String × Option Nat) : Expr :=
  Expr.op "&" [.var q.1 q.2] none

/-- The specifiers extracted from the literal scanf format token (quotes
stripped). -/
def scanfFmtSpecs (v : String) : List String :=
  findSpecs ((v.toList.drop 1).dropLast)

theorem toList_mk (l : List Char) : (String.mk l).toList = l := rfl

theorem scanfLoop_addr (line : Nat) :
    ∀ (ps : List (String × String × Option Nat)) (st : PState),
      scanfLoop line (ps.map (Prod.map id addrOfVar)) st
        = .ok {st with
            exprs := st.exprs ++ claimScanfUpdates line
              (ps.map (fun (p : String × String × Option Nat) => (p.1, p.2.1))),
            warns := st.warns ++ claimScanfWarns line (ps.map Prod.fst)} := by
  intro ps
  induction ps with
  | nil =>
      intro st
      simp [scanfLoop, claimScanfUpdates, claimScanfWarns]
  | cons p ps ih =>
      intro st
      obtain ⟨fs, v, lv⟩ := p
      rcases hT : scanfTypeName fs with ⟨t, w⟩
      simp only [List.map, Prod.map, id, addrOfVar, scanfLoop, scanfPair, hT]
      cases w with
      | false =>
          simp only [if_neg (by simp : ¬ (false = true))]
          rw [ih]
          simp [claimScanfUpdates, claimScanfWarns, hT, PState.addexpr,
            PState.addwarn]
      | true =>
          simp only [if_pos rfl]
          rw [ih]
          simp [claimScanfUpdates, claimScanfWarns, hT, PState.addexpr,
            PState.addwarn]

/-- Claim C6: an input call with a literal string format and address-of
variable arguments schedules, for each (recognized specifier, argument)
pair in order, one update popping a typed head element off the input stream
into the target and one update advancing the input stream to its tail; when
the specifier and argument counts match there is exactly one such pair per
argument and no warning, when the specifiers are fewer the mismatch warning
is recorded and the specifier list is padded with the wildcard, and when
the specifiers are more the mismatch warning is recorded and the zip
truncates the extra specifiers. -/
theorem c6_scanf_pairs (line : Nat) (pfx : String) (st : PState) (v : String)
    (lf : Option Nat) (vars : List (String × Option Nat))
    (hq1 : v.toList.head? = some '"')
    (hq2 : v.toList.getLast? = some '"') :
    ((scanfFmtSpecs v).length = vars.length →
      visit_scanf line (.const v lf :: vars.map addrOfVar) pfx st
      = .ok (.vnone,
        ({st with
            exprs := st.exprs ++ claimScanfUpdates line
              (((scanfFmtSpecs v).zip vars).map
                (fun (p : String × String × Option Nat) => (p.1, p.2.1))),
            warns := st.warns ++ claimScanfWarns line
              (((scanfFmtSpecs v).zip vars).map Prod.fst)}).addlinemap line pfx))
    ∧ ((scanfFmtSpecs v).length < vars.length →
      visit_scanf line (.const v lf :: vars.map addrOfVar) pfx st
      = .ok (.vnone,
        ({st with
            exprs := st.exprs ++ claimScanfUpdates line
              ((((scanfFmtSpecs v) ++
                  List.replicate (vars.length - (scanfFmtSpecs v).length) "*").zip
                 vars).map
                (fun (p : String × String × Option Nat) => (p.1, p.2.1))),
            warns := st.warns ++
              ["Mismatch between format and number of arguments of scanf at line "
                ++ Nat.repr line] ++
              claimScanfWarns line
                ((((scanfFmtSpecs v) ++
                    List.replicate (vars.length - (scanfFmtSpecs v).length) "*").zip
                   vars).map Prod.fst)}).addlinemap line pfx))
    ∧ (vars.length < (scanfFmtSpecs v).length →
      visit_scanf line (.const v lf :: vars.map addrOfVar) pfx st
      = .ok (.vnone,
        ({st with
            exprs := st.exprs ++ claimScanfUpdates line
              (((scanfFmtSpecs v).zip vars).map
                (fun (p : String × String × Option Nat) => (p.1, p.2.1))),
            warns := st.warns ++
              ["Mismatch between format and number of arguments of scanf at line "
                ++ Nat.repr line] ++
              claimScanfWarns line
                (((scanfFmtSpecs v).zip vars).map Prod.fst)}).addlinemap line pfx)) := by
  rcases hv : v.toList with _ | ⟨ch, cs⟩
  · rw [hv] at hq1; simp at hq1
  · rw [hv] at hq1 hq2
    refine ⟨?_, ?_, ?_⟩ <;> intro h <;>
      simp only [scanfFmtSpecs, hv] at h ⊢ <;>
      simp only [visit_scanf, hv] <;>
      rw [if_pos ⟨hq1, hq2⟩] <;>
      dsimp only <;>
      simp only [toList_mk, List.length_map]
    · rw [if_neg (by omega)]
      rw [List.zip_map_right]
      rw [scanfLoop_addr]
    · rw [if_pos (by omega), if_pos (by omega)]
      dsimp only
      rw [List.zip_map_right]
      rw [scanfLoop_addr]
      simp [PState.addwarn, PState.addlinemap]
    · rw [if_pos (by omega), if_neg (by omega)]
      dsimp only
      rw [List.zip_map_right]
      rw [scanfLoop_addr]
      simp [PState.addwarn, PState.addlinemap]

theorem c6_scanf_pairs_witness :
    updatesOf (visit_scanf 10 (.const "\"%d %d\"" (some 10) ::
        ([("x", some 10), ("y", some 10)] : List (String × Option Nat)).map
          addrOfVar) "main." PState.init)
      = some [⟨"x", .op "ListHead" [.const "int" none, .var VAR_IN none] (some 10)⟩,
              ⟨VAR_IN, .op "ListTail" [.var VAR_IN none] (some 10)⟩,
              ⟨"y", .op "ListHead" [.const "int" none, .var VAR_IN none] (some 10)⟩,
              ⟨VAR_IN, .op "ListTail" [.var VAR_IN none] (some 10)⟩]
    ∧ warnsOf (visit_scanf 10 (.const "\"%d %d\"" (some 10) ::
        ([("x", some 10), ("y", some 10)] : List (String × Option Nat)).map
          addrOfVar) "main." PState.init)
      = some [] := by
  rw [(c6_scanf_pairs 10 "main." PState.init "\"%d %d\"" (some 10)
    [("x", some 10), ("y", some 10)] rfl rfl).1 rfl]
  exact ⟨rfl, rfl⟩

theorem c4_switch_shape_witness :
    visit (10+1) (.Switch (.ID "v" 14) (.Compound [] 14) 14) "main."
      PState.init = .error (.notSupported "Switch statement" (some 14)) :=
  (c4_switch_shape 10 (.ID "v" 14) [] 14 14 "main." PState.init PState.init
    (.var "v" (some 14)) rfl).1 rfl
